import Mathlib

/-
Shallow embedding of the batch orchestration, transport and reconciliation
logic of ctfcli's ChallengeCommand (src/ctfcli/cli/challenges.py).

External effects (subprocess exit codes, `git status` output, remote platform
responses, entity-level exceptions) are modelled as oracle data carried on
each batch item, so every command's per-item processing becomes a pure
function and each batch command a pure fold over its item list.
-/

namespace Ctfcli

/-- Python truthiness of an optional string value: `None` and the empty
string are falsy (this is how `challenge_repo` lookups and
`challenge_instance.get("connection_info")` are tested in the source). -/
def pyTruthy : Option String → Bool
  | none => false
  | some s => !(s == "")

/-- Resolution of a challenge's repository locator in `push`/`pull`:
`config.challenges.get(str(challenge_path))`, falling back to
`config.challenges.get(str(challenge_path / "challenge.yml"))`, failing when
both are falsy. -/
def resolveRepo (byDir byYml : Option String) : Option String :=
  if pyTruthy byDir then byDir else if pyTruthy byYml then byYml else none

/-- Model of Python's `str.endswith` over the character list (kept
kernel-reducible so concrete instances evaluate; `String.endsWith` agrees
with it on every input). -/
def strEndsWith (s post : String) : Bool := post.data.isSuffixOf s.data

/-- Model of the clean-status test `git_status.stdout.strip() == ""`: every
character of the output is whitespace. -/
def strBlank (s : String) : Bool := s.data.all Char.isWhitespace

/-- Model of Python's `int(s)` applied to registry keys: defined exactly on
nonempty all-digit strings (a raised ValueError is `none`). -/
def strToNat (s : String) : Option Nat :=
  if !s.data.isEmpty && s.data.all Char.isDigit then
    some (s.data.foldl (fun n c => n * 10 + (c.toNat - 48)) 0)
  else none

/-- Git subprocess invocations a single batch item can trigger (identified by
shape; arguments such as paths and URLs are determined by the item). -/
inductive GitCmd
  | status
  | addAll
  | commit
  | subtreePush
  | subrepoPush
  | subtreePull
  | subrepoPull (flag : Option String)
  | mergetool
  | commitNoEdit
  | cleanUntracked
  | subtreeAdd
  | subrepoForcePull
  deriving DecidableEq, Repr

/-- Outcome of processing one batch item: whether it was appended to the
command's failed list, and the git subprocess invocations performed for it. -/
structure ItemRes where
  failed : Bool
  cmds : List GitCmd
  deriving DecidableEq, Repr

/-- Oracle for the git subprocesses `push` may run for one challenge. -/
structure PushEnv where
  statusOut : String
  statusRc : Nat
  addRc : Nat
  commitRc : Nat
  pushRc : Nat
  deriving DecidableEq, Repr

/-- One challenge as seen by `push`: its project-relative directory path, the
two registry lookups, and the subprocess oracle. -/
structure PushItem where
  path : String
  byDir : Option String
  byYml : Option String
  env : PushEnv
  deriving DecidableEq, Repr

/-- Loop body of `ChallengeCommand.push` for one challenge (lines 242-326):
registry lookup, `.git` suffix check, `git status --porcelain` clean-skip,
`git add .` + `git commit`, then the backend-conditional subtree/subrepo
push.  The auto-pull on success changes neither the failed list nor the
result, so it is not modelled. -/
def pushProcessItem (useSubrepo : Bool) (it : PushItem) : ItemRes :=
  match resolveRepo it.byDir it.byYml with
  | none => ⟨true, []⟩
  | some repo =>
    if !(strEndsWith repo ".git") then ⟨true, []⟩
    else if strBlank it.env.statusOut && it.env.statusRc == 0 then ⟨false, [.status]⟩
    else if it.env.addRc != 0 || it.env.commitRc != 0 then ⟨true, [.status, .addAll, .commit]⟩
    else if it.env.pushRc != 0 then
      ⟨true, [.status, .addAll, .commit, if useSubrepo then .subrepoPush else .subtreePush]⟩
    else ⟨false, [.status, .addAll, .commit, if useSubrepo then .subrepoPush else .subtreePush]⟩

/-- Oracle for the git subprocesses `pull` may run for one challenge. -/
structure PullEnv where
  pullRc : Nat
  mergetoolRc : Nat
  commitRc : Nat
  cleanRc : Nat
  deriving DecidableEq, Repr

/-- One challenge as seen by `pull`. -/
structure PullItem where
  path : String
  byDir : Option String
  byYml : Option String
  env : PullEnv
  deriving DecidableEq, Repr

/-- Outcome of one `pull` item; `invalidStrategyReported` records whether the
"not a valid pull strategy" message was printed. -/
structure PullRes where
  failed : Bool
  cmds : List GitCmd
  invalidStrategyReported : Bool
  deriving DecidableEq, Repr

/-- Strategy flag appended to `git subrepo pull` (lines 402-409): known
strategies map to their flag, fast-forward and anything unrecognized append
nothing. -/
def subrepoStrategyFlag (s : String) : Option String :=
  if s == "rebase" then some "--rebase"
  else if s == "merge" then some "--merge"
  else if s == "force" then some "--force"
  else none

/-- Strategy strings accepted by the subrepo branch of `pull`. -/
def validSubrepoStrategy (s : String) : Bool :=
  s == "rebase" || s == "merge" || s == "force" || s == "fast-forward"

/-- Loop body of `ChallengeCommand.pull` for one challenge (lines 366-455):
registry lookup, `.git` suffix check, then either `git subrepo pull` (with
the strategy flag; an unrecognized strategy prints an error and falls through
to the flagless pull) or `git subtree pull` followed by the
mergetool/commit/clean conflict-resolution steps. -/
def pullProcessItem (useSubrepo : Bool) (strategy : String) (it : PullItem) : PullRes :=
  match resolveRepo it.byDir it.byYml with
  | none => ⟨true, [], false⟩
  | some repo =>
    if !(strEndsWith repo ".git") then ⟨true, [], false⟩
    else if useSubrepo then
      ⟨it.env.pullRc != 0, [.subrepoPull (subrepoStrategyFlag strategy)],
        !(validSubrepoStrategy strategy)⟩
    else if it.env.pullRc != 0 then ⟨true, [.subtreePull], false⟩
    else
      ⟨it.env.mergetoolRc != 0 || it.env.cleanRc != 0,
        [.subtreePull, .mergetool, .commitNoEdit, .cleanUntracked], false⟩

/-- One registry entry as seen by `restore`: the challenge key, its source
locator, whether the target directory exists, and the subprocess oracle. -/
structure RestoreItem where
  key : String
  source : String
  targetExists : Bool
  subtreeAddRc : Nat
  forcePullRc : Nat
  deriving DecidableEq, Repr

/-- Outcome of one `restore` item; `skippedNotGit` records the yellow
"not a git-based challenge" skip message. -/
structure RestoreRes where
  failed : Bool
  cmds : List GitCmd
  skippedNotGit : Bool
  deriving DecidableEq, Repr

/-- Loop body of `ChallengeCommand.restore` for one registry entry (lines
483-558): non-git sources are skipped (without joining the failed list);
keys ending in `.yml` are unsupported and fail; the subrepo backend
degenerates to a force pull; the built-in backend refuses an existing target
directory and otherwise re-adds the subtree. -/
def restoreProcessItem (useSubrepo : Bool) (it : RestoreItem) : RestoreRes :=
  if !(strEndsWith it.source ".git") then ⟨false, [], true⟩
  else if strEndsWith it.key ".yml" then ⟨true, [], false⟩
  else if useSubrepo then ⟨it.forcePullRc != 0, [.subrepoForcePull], false⟩
  else if it.targetExists then ⟨true, [], false⟩
  else ⟨it.subtreeAddRc != 0, [.subtreeAdd], false⟩

/-- One local challenge as seen by `install`: its remote id, display name,
and whether the entity-level `sync`/`create` calls raise a
`ChallengeException`. -/
structure InstallItem where
  id : Nat
  name : String
  syncRaises : Bool
  createRaises : Bool
  deriving DecidableEq, Repr

/-- Entity operation `install` ends up invoking for one challenge. -/
inductive InstallAction
  | conflictReported
  | syncedExisting
  | created
  deriving DecidableEq, Repr

/-- Outcome of one `install` item. -/
structure InstallRes where
  failed : Bool
  action : InstallAction
  deriving DecidableEq, Repr

/-- Loop body of `ChallengeCommand.install` for one challenge (lines
592-637): scan the remote list for a counterpart with the same id; on a
duplicate fail (without force) or fall back to the entity sync (with force,
failing only if the sync raises); otherwise create, failing only if the
create raises. -/
def installProcessItem (force : Bool) (remoteIds : List Nat) (it : InstallItem) : InstallRes :=
  if remoteIds.contains it.id then
    if !force then ⟨true, .conflictReported⟩
    else ⟨it.syncRaises, .syncedExisting⟩
  else ⟨it.createRaises, .created⟩

/-- One local challenge as seen by `sync`. -/
structure SyncItem where
  id : Nat
  name : String
  syncRaises : Bool
  deriving DecidableEq, Repr

/-- Loop body of `ChallengeCommand.sync` for one challenge (lines 669-694):
a challenge with no remote counterpart of the same id fails ("perhaps you
meant install"); otherwise the entity sync runs and the item fails exactly
when it raises.  No git subprocess is involved. -/
def syncProcessItem (remoteIds : List Nat) (it : SyncItem) : ItemRes :=
  if !(remoteIds.contains it.id) then ⟨true, []⟩
  else ⟨it.syncRaises, []⟩

/-- Classification the entity-level `verify` call yields for one challenge:
field-equal (in sync), not field-equal (out of sync), or a raised
`ChallengeException`. -/
inductive VerifyOutcome
  | inSync
  | outOfSync
  | error
  deriving DecidableEq, Repr

/-- One local challenge as seen by `verify`, with its oracle outcome. -/
structure VerifyItem where
  name : String
  outcome : VerifyOutcome
  deriving DecidableEq, Repr

/-- Challenges whose verification raised (the `failed_verifications` list). -/
def verifyErrored (items : List VerifyItem) : List VerifyItem :=
  items.filter (fun it => it.outcome == .error)

/-- Challenges classified in sync (the `challenges_in_sync` list). -/
def verifyInSync (items : List VerifyItem) : List VerifyItem :=
  items.filter (fun it => it.outcome == .inSync)

/-- Challenges classified out of sync (the `challenges_out_of_sync` list). -/
def verifyOutOfSync (items : List VerifyItem) : List VerifyItem :=
  items.filter (fun it => it.outcome == .outOfSync)

/-- Exit status of `ChallengeCommand.verify` (lines 1045-1067): with no
errored verification the command returns 2 when more than one challenge is
out of sync and otherwise returns 1 (including when every challenge is in
sync); with an errored verification it returns 1. -/
def verifyExit (items : List VerifyItem) : Nat :=
  if (verifyErrored items).length = 0 then
    if (verifyOutOfSync items).length > 1 then 2 else 1
  else 1

/-- Per-item report of a batch loop: the loop body applied to every item in
order, never aborting early (each failing branch of the source loops ends in
`continue`, not `break` or `return`). -/
def batchReport {α β : Type} (f : α → β) : List α → List β
  | [] => []
  | a :: rest => f a :: batchReport f rest

/-- Failed list accumulated by a batch loop: exactly the items whose
processing set the failed flag, in iteration order. -/
def batchFailed {α : Type} (f : α → ItemRes) (items : List α) : List α :=
  items.filter (fun a => (f a).failed)

/-- Aggregate exit status of the push/pull/sync/install-style batch
commands, computed from the failed list after the full iteration:
0 when it is empty, 1 otherwise. -/
def batchExit {α : Type} (f : α → ItemRes) (items : List α) : Nat :=
  if (batchFailed f items).length = 0 then 0 else 1

/-- Exit status of a `push` batch. -/
def pushExit (useSubrepo : Bool) (items : List PushItem) : Nat :=
  batchExit (pushProcessItem useSubrepo) items

/-- Exit status of a `sync` batch. -/
def syncExit (remoteIds : List Nat) (items : List SyncItem) : Nat :=
  batchExit (syncProcessItem remoteIds) items

/-- One local challenge as seen by `mirror`: the outcome of its entity-level
verify call (when verification is not skipped) and whether the entity mirror
call raises a `ChallengeException`. -/
structure MirrorItem where
  name : String
  verifyOutcome : VerifyOutcome
  mirrorRaises : Bool
  deriving DecidableEq, Repr

/-- Loop body of `ChallengeCommand.mirror` for one challenge (lines
978-991): unless verification is skipped, a challenge verifying in sync is
skipped; otherwise the entity mirror runs; a `ChallengeException` raised by
either call marks the item failed.  No git subprocess is involved. -/
def mirrorProcessItem (skipVerify : Bool) (it : MirrorItem) : ItemRes :=
  if !skipVerify then
    match it.verifyOutcome with
    | .error => ⟨true, []⟩
    | .inSync => ⟨false, []⟩
    | .outOfSync => ⟨it.mirrorRaises, []⟩
  else ⟨it.mirrorRaises, []⟩

/-- Failed list of a batch loop whose per-item results are not `ItemRes`
(pull, restore, install), given the result's failed flag: exactly the items
whose processing set that flag, in iteration order. -/
def batchFailedBy {α β : Type} (f : α → β) (p : β → Bool) (items : List α) : List α :=
  items.filter (fun a => p (f a))

/-- Aggregate exit status of such a batch, computed from the failed list
after the full iteration: 0 when it is empty, 1 otherwise. -/
def batchExitBy {α β : Type} (f : α → β) (p : β → Bool) (items : List α) : Nat :=
  if (batchFailedBy f p items).length = 0 then 0 else 1

/-- Exit status of a `pull` batch (lines 457-467). -/
def pullExit (useSubrepo : Bool) (strategy : String) (items : List PullItem) : Nat :=
  batchExitBy (pullProcessItem useSubrepo strategy) (fun r => r.failed) items

/-- Exit status of a `restore` batch (lines 560-568). -/
def restoreExit (useSubrepo : Bool) (items : List RestoreItem) : Nat :=
  batchExitBy (restoreProcessItem useSubrepo) (fun r => r.failed) items

/-- Exit status of an `install` batch (lines 639-647). -/
def installExit (force : Bool) (remoteIds : List Nat) (items : List InstallItem) : Nat :=
  batchExitBy (installProcessItem force remoteIds) (fun r => r.failed) items

/-- Exit status of a `mirror` batch (lines 993-1001). -/
def mirrorExit (skipVerify : Bool) (items : List MirrorItem) : Nat :=
  batchExit (mirrorProcessItem skipVerify) items

/-- Challenge key built by `add` for a git-sourced challenge (lines
149-154): the project-relative challenge path, extended with the explicit
definition-file suffix when a custom `yaml_path` is given. -/
def mkChallengeKey (challengePath : String) (yamlPath : Option String) : String :=
  match yamlPath with
  | some y => challengePath ++ "/" ++ y
  | none => challengePath

/-- Registry entry written by `add` for a git-sourced challenge (line 161):
`config["challenges"][str(new_challenge.challenge_id)] = challenge_key`,
i.e. the entry is keyed by the numeric challenge id and its value is the
challenge key (the relative path), not the repository URL. -/
def addGitRegistryEntry (challengeId : Nat) (challengePath : String)
    (yamlPath : Option String) : String × String :=
  (toString challengeId, mkChallengeKey challengePath yamlPath)

/-- Registry entry written by `add` for a filesystem-sourced challenge (line
207): `config["challenges"][str(new_challenge.challenge_id)] = repo`. -/
def addDirRegistryEntry (challengeId : Nat) (repo : String) : String × String :=
  (toString challengeId, repo)

/-- Per-key resolution of `_resolve_all_challenges` (line 1137): every
registry key is passed through `int(challenge_key)` and a challenge is
constructed from that numeric id; a non-numeric key makes `int` raise
(modelled as `none`) instead of being used as a path. -/
def resolveAllChallengeRefs (keys : List String) : List (Option Nat) :=
  keys.map (fun k => strToNat k)

/-- Whether `push` wraps its iteration in a progress indicator (lines
231-234): a null context when quiet is requested or the list has at most one
element, a progress bar otherwise. -/
def pushShowsProgress (quiet : Bool) (n : Nat) : Bool :=
  !(quiet || decide (n ≤ 1))

/-- Whether `pull` wraps its iteration in a progress indicator (lines
354-357): same condition as `push`. -/
def pullShowsProgress (quiet : Bool) (n : Nat) : Bool :=
  !(quiet || decide (n ≤ 1))

/-- Whether `install` wraps its iteration in a progress indicator (line
591): unconditionally yes, with no quiet option. -/
def installShowsProgress (_n : Nat) : Bool := true

/-- Whether `sync` wraps its iteration in a progress indicator (line 668):
unconditionally yes, with no quiet option. -/
def syncShowsProgress (_n : Nat) : Bool := true

/-- Whether `verify` wraps its iteration in a progress indicator (line
1033): unconditionally yes, with no quiet option. -/
def verifyShowsProgress (_n : Nat) : Bool := true

/-- Whether `mirror` wraps its iteration in a progress indicator (line 977):
unconditionally yes, with no quiet option. -/
def mirrorShowsProgress (_n : Nat) : Bool := true

/-- Whether `restore` wraps its iteration in a progress indicator (lines
482-558): never - the loop over the registry entries runs bare, with no
progress bar and no quiet option. -/
def restoreShowsProgress (_n : Nat) : Bool := false

/-- Connection-info reconciliation in `deploy` (lines 767-778): a truthy
pre-existing `connection_info` is kept; otherwise a truthy deployment-result
descriptor is adopted; otherwise the attribute is cleared (`None`). -/
def deployConnectionInfo (existing result : Option String) : Option String :=
  if pyTruthy existing then existing
  else if pyTruthy result then result
  else none

/-- Report of a batch splits around any decomposition of the item list:
every item before and after a given one is still processed by the loop
body. -/
theorem batchReport_append {α β : Type} (f : α → β) (l1 l2 : List α) :
    batchReport f (l1 ++ l2) = batchReport f l1 ++ batchReport f l2 := by
  induction l1 with
  | nil => rfl
  | cons a rest ih => simp [batchReport, ih]

/-- Generic continue-on-error shape of the batch loops: a failing item in
the middle leaves the reports of the items before and after it intact, lands
in the failed list, and forces aggregate status 1. -/
theorem batch_mid_failure {α : Type} (f : α → ItemRes) (l1 l2 : List α) (a : α)
    (ha : (f a).failed = true) :
    batchReport f (l1 ++ a :: l2) = batchReport f l1 ++ f a :: batchReport f l2
      ∧ batchFailed f (l1 ++ a :: l2) = batchFailed f l1 ++ a :: batchFailed f l2
      ∧ batchExit f (l1 ++ a :: l2) = 1 := by
  have hrep : batchReport f (l1 ++ a :: l2)
      = batchReport f l1 ++ f a :: batchReport f l2 := by
    rw [batchReport_append]; rfl
  have hfail : batchFailed f (l1 ++ a :: l2)
      = batchFailed f l1 ++ a :: batchFailed f l2 := by
    unfold batchFailed
    rw [List.filter_append]
    simp [List.filter_cons, ha]
  refine ⟨hrep, hfail, ?_⟩
  unfold batchExit
  rw [hfail, if_neg]
  simp

/-- Continue-on-error shape of the batch loops whose per-item results are
not `ItemRes` (pull, restore, install): same statement as
`batch_mid_failure`, with the failed flag supplied explicitly. -/
theorem batch_mid_failure_by {α β : Type} (f : α → β) (p : β → Bool)
    (l1 l2 : List α) (a : α) (ha : p (f a) = true) :
    batchReport f (l1 ++ a :: l2) = batchReport f l1 ++ f a :: batchReport f l2
      ∧ batchFailedBy f p (l1 ++ a :: l2)
        = batchFailedBy f p l1 ++ a :: batchFailedBy f p l2
      ∧ batchExitBy f p (l1 ++ a :: l2) = 1 := by
  have hrep : batchReport f (l1 ++ a :: l2)
      = batchReport f l1 ++ f a :: batchReport f l2 := by
    rw [batchReport_append]; rfl
  have hfail : batchFailedBy f p (l1 ++ a :: l2)
      = batchFailedBy f p l1 ++ a :: batchFailedBy f p l2 := by
    unfold batchFailedBy
    rw [List.filter_append]
    simp [List.filter_cons, ha]
  refine ⟨hrep, hfail, ?_⟩
  unfold batchExitBy
  rw [hfail, if_neg]
  simp

/-- Continue-on-error shape of the verify loop: an item whose verification
raises is classified into the errored listing while every other item, before
or after it, still lands in the classification list its own outcome
dictates, and the exit status computed from the full listings is 1. -/
theorem verify_mid_error (v1 v2 : List VerifyItem) (c : VerifyItem)
    (hc : c.outcome = VerifyOutcome.error) :
    verifyErrored (v1 ++ c :: v2) = verifyErrored v1 ++ c :: verifyErrored v2
      ∧ verifyInSync (v1 ++ c :: v2) = verifyInSync v1 ++ verifyInSync v2
      ∧ verifyOutOfSync (v1 ++ c :: v2) = verifyOutOfSync v1 ++ verifyOutOfSync v2
      ∧ verifyExit (v1 ++ c :: v2) = 1 := by
  have h1 : verifyErrored (v1 ++ c :: v2) = verifyErrored v1 ++ c :: verifyErrored v2 := by
    unfold verifyErrored
    rw [List.filter_append]
    simp [List.filter_cons, hc]
  have h2 : verifyInSync (v1 ++ c :: v2) = verifyInSync v1 ++ verifyInSync v2 := by
    unfold verifyInSync
    rw [List.filter_append]
    simp [List.filter_cons, hc]
  have h3 : verifyOutOfSync (v1 ++ c :: v2) = verifyOutOfSync v1 ++ verifyOutOfSync v2 := by
    unfold verifyOutOfSync
    rw [List.filter_append]
    simp [List.filter_cons, hc]
  refine ⟨h1, h2, h3, ?_⟩
  unfold verifyExit
  rw [h1, if_neg]
  simp

/-- Helper for the progress-indicator policy: the push/pull gating condition
is equivalent to "not quiet and more than one item". -/
theorem progress_gate_eq (quiet : Bool) (n : Nat) :
    (!(quiet || decide (n ≤ 1))) = (!quiet && decide (1 < n)) := by
  cases quiet with
  | false =>
    by_cases h : n ≤ 1
    · rw [decide_eq_true h, decide_eq_false (by omega : ¬ 1 < n)]
      rfl
    · rw [decide_eq_false h, decide_eq_true (by omega : 1 < n)]
      rfl
  | true => rfl

/-- C1: evaluation of the verify exit status at the failing input — a batch
in which every challenge is classified in sync and no verification errored
returns exit status 1, not the documented 0. -/
theorem verify_allInSync_returns_one :
    verifyExit [⟨"alpha", .inSync⟩, ⟨"beta", .inSync⟩] = 1 ∧
    verifyExit [⟨"alpha", .inSync⟩, ⟨"beta", .inSync⟩] ≠ 0 := by decide

/-- C2 (counterexample): a restore over a filesystem-sourced registry entry
reports the not-git skip and runs no git command, but is not counted as a
failed item — refuting the claim that all three transport operations count
such a challenge as failed. -/
theorem restore_nonGit_not_counted_failed :
    strEndsWith "/local/chal-a" ".git" = false ∧
    restoreProcessItem false ⟨"chal-a", "/local/chal-a", false, 0, 0⟩
      = ⟨false, [], true⟩ := by decide

/-- C2 (amended): for a challenge whose source locator is a filesystem path,
push and pull report it failed with no git invocation, while restore
performs no git invocation and reports the not-git skip without counting the
challenge as failed. -/
theorem transport_nonGit_behavior (us : Bool) (strategy : String)
    (pit : PushItem) (lit : PullItem) (rit : RestoreItem) (repo : String)
    (hp : resolveRepo pit.byDir pit.byYml = some repo)
    (hl : resolveRepo lit.byDir lit.byYml = some repo)
    (hr : rit.source = repo)
    (hg : strEndsWith repo ".git" = false) :
    pushProcessItem us pit = ⟨true, []⟩ ∧
    pullProcessItem us strategy lit = ⟨true, [], false⟩ ∧
    restoreProcessItem us rit = ⟨false, [], true⟩ := by
  refine ⟨?_, ?_, ?_⟩
  · simp [pushProcessItem, hp, hg]
  · simp [pullProcessItem, hl, hg]
  · simp [restoreProcessItem, hr, hg]

/-- C2 (witness): the amended behavior at a concrete filesystem-sourced
challenge. -/
theorem transport_nonGit_behavior_witness :
    pushProcessItem false ⟨"chal-a", some "/local/chal-a", none, ⟨"", 0, 0, 0, 0⟩⟩
      = ⟨true, []⟩ ∧
    pullProcessItem false "fast-forward"
      ⟨"chal-a", some "/local/chal-a", none, ⟨0, 0, 0, 0⟩⟩ = ⟨true, [], false⟩ ∧
    restoreProcessItem false ⟨"chal-a2", "/local/chal-a", false, 0, 0⟩
      = ⟨false, [], true⟩ :=
  transport_nonGit_behavior false "fast-forward"
    ⟨"chal-a", some "/local/chal-a", none, ⟨"", 0, 0, 0, 0⟩⟩
    ⟨"chal-a", some "/local/chal-a", none, ⟨0, 0, 0, 0⟩⟩
    ⟨"chal-a2", "/local/chal-a", false, 0, 0⟩
    "/local/chal-a" (by decide) (by decide) rfl (by decide)

/-- C3: evaluation of the registry entry written by `add` at the failing
input — the entry is keyed by the stringified numeric challenge id, with the
relative path as its value for a git-sourced challenge (not path-key to
locator-value), and `_resolve_all_challenges` interprets keys as integers
rather than paths. -/
theorem add_registry_entry_keyed_by_id :
    addGitRegistryEntry 5 "web" none = ("5", "web") ∧
    addGitRegistryEntry 5 "web" none ≠ ("web", "https://host/web.git") ∧
    addGitRegistryEntry 5 "web" (some "challenge2.yml") = ("5", "web/challenge2.yml") ∧
    addDirRegistryEntry 7 "/local/chal-a" = ("7", "/local/chal-a") ∧
    resolveAllChallengeRefs ["5", "web"] = [some 5, none] := by decide

/-- C4: evaluation of the subrepo pull at the failing input — an
unrecognized strategy string prints the invalid-strategy error yet the
flagless `git subrepo pull` is still invoked, and the challenge is not
recorded as a failed pull when that subprocess succeeds. -/
theorem pull_invalid_strategy_still_pulls :
    pullProcessItem true "bogus" ⟨"web", some "https://host/web.git", none, ⟨0, 0, 0, 0⟩⟩
      = ⟨false, [GitCmd.subrepoPull none], true⟩ ∧
    validSubrepoStrategy "bogus" = false := by decide

/-- C5: under the built-in backend, a git-sourced restore whose key carries
an explicit definition-file suffix or whose target directory already exists
performs no git invocation and is recorded as a failed restore. -/
theorem restore_builtin_preconditions (it : RestoreItem)
    (hgit : strEndsWith it.source ".git" = true)
    (h : strEndsWith it.key ".yml" = true ∨ it.targetExists = true) :
    (restoreProcessItem false it).failed = true ∧
    (restoreProcessItem false it).cmds = [] := by
  rcases h with h | h
  · simp [restoreProcessItem, hgit, h]
  · by_cases hy : strEndsWith it.key ".yml" = true
    · simp [restoreProcessItem, hgit, hy]
    · simp at hy
      simp [restoreProcessItem, hgit, hy, h]

/-- C5 (witness): a concrete explicit-suffix key under the built-in
backend. -/
theorem restore_builtin_preconditions_witness :
    (restoreProcessItem false
      ⟨"web/challenge.yml", "https://host/web.git", false, 0, 0⟩).failed = true ∧
    (restoreProcessItem false
      ⟨"web/challenge.yml", "https://host/web.git", false, 0, 0⟩).cmds = [] :=
  restore_builtin_preconditions
    ⟨"web/challenge.yml", "https://host/web.git", false, 0, 0⟩
    (by decide) (Or.inl (by decide))

/-- C6: a challenge with a remote counterpart of the same id is a conflict
counted failed without the force flag and is synced instead under force
(failing only if the sync raises); a challenge with no counterpart proceeds
to creation. -/
theorem install_duplicate_handling (force : Bool) (remoteIds : List Nat) (it : InstallItem) :
    (remoteIds.contains it.id = true →
      (force = false → installProcessItem force remoteIds it = ⟨true, .conflictReported⟩) ∧
      (force = true → installProcessItem force remoteIds it = ⟨it.syncRaises, .syncedExisting⟩)) ∧
    (remoteIds.contains it.id = false →
      installProcessItem force remoteIds it = ⟨it.createRaises, .created⟩) := by
  constructor
  · intro hdup
    constructor
    · intro hf; subst hf; unfold installProcessItem; rw [hdup]; simp
    · intro hf; subst hf; unfold installProcessItem; rw [hdup]; simp
  · intro hdup; unfold installProcessItem; rw [hdup]; simp

/-- C6 (witness): concrete duplicate without force, duplicate with force,
and absent-remote cases. -/
theorem install_duplicate_handling_witness :
    installProcessItem false [3, 7] ⟨3, "alpha", false, false⟩ = ⟨true, .conflictReported⟩ ∧
    installProcessItem true [3, 7] ⟨3, "alpha", false, false⟩ = ⟨false, .syncedExisting⟩ ∧
    installProcessItem false [3, 7] ⟨9, "beta", false, false⟩ = ⟨false, .created⟩ :=
  ⟨((install_duplicate_handling false [3, 7] ⟨3, "alpha", false, false⟩).1 (by decide)).1 rfl,
   ((install_duplicate_handling true [3, 7] ⟨3, "alpha", false, false⟩).1 (by decide)).2 rfl,
   (install_duplicate_handling false [3, 7] ⟨9, "beta", false, false⟩).2 (by decide)⟩

/-- C7: a git-sourced push item with a clean `git status` is skipped after
only the status query (no add, commit, or subtree/subrepo push) without
joining the failed list, and a batch of only such items exits with 0. -/
theorem push_clean_status_skipped (us : Bool) (items : List PushItem)
    (h : ∀ it ∈ items, ∃ repo, resolveRepo it.byDir it.byYml = some repo ∧
      strEndsWith repo ".git" = true ∧ strBlank it.env.statusOut = true ∧ it.env.statusRc = 0) :
    (∀ it ∈ items, pushProcessItem us it = ⟨false, [.status]⟩) ∧
    pushExit us items = 0 := by
  have hone : ∀ it ∈ items, pushProcessItem us it = ⟨false, [.status]⟩ := by
    intro it hit
    obtain ⟨repo, hr, hg, hs, hrc⟩ := h it hit
    simp [pushProcessItem, hr, hg, hs, hrc]
  refine ⟨hone, ?_⟩
  have hnil : batchFailed (pushProcessItem us) items = [] := by
    apply List.filter_eq_nil_iff.mpr
    intro a ha
    simp [hone a ha]
  simp [pushExit, batchExit, hnil]

/-- C7 (witness): a concrete one-item batch with a clean status exits 0. -/
theorem push_clean_status_skipped_witness :
    pushExit false [⟨"web", some "https://host/web.git", none, ⟨"", 0, 0, 0, 0⟩⟩] = 0 :=
  (push_clean_status_skipped false
    [⟨"web", some "https://host/web.git", none, ⟨"", 0, 0, 0, 0⟩⟩]
    (by
      intro it hit
      simp only [List.mem_singleton] at hit
      subst hit
      exact ⟨"https://host/web.git", by decide, by decide, by decide, rfl⟩)).2

/-- C8: for every batch command (push, pull, restore, install, sync, verify
and mirror), an item failing in the middle of the list leaves every earlier
and later item processed in order in the report, appears in the end-of-batch
failure listing together with every other failed item, and the aggregate
exit status - computed from the failure listing only after the full
iteration - is 1 (also for verify, whose errored branch returns 1). -/
theorem batch_continue_on_error
    (us force skipVerify : Bool) (strategy : String) (remoteIds : List Nat)
    (p1 p2 : List PushItem) (a : PushItem)
    (q1 q2 : List PullItem) (b : PullItem)
    (r1 r2 : List RestoreItem) (c : RestoreItem)
    (i1 i2 : List InstallItem) (d : InstallItem)
    (s1 s2 : List SyncItem) (e : SyncItem)
    (v1 v2 : List VerifyItem) (v : VerifyItem)
    (m1 m2 : List MirrorItem) (m : MirrorItem)
    (ha : (pushProcessItem us a).failed = true)
    (hb : (pullProcessItem us strategy b).failed = true)
    (hc : (restoreProcessItem us c).failed = true)
    (hd : (installProcessItem force remoteIds d).failed = true)
    (he : (syncProcessItem remoteIds e).failed = true)
    (hv : v.outcome = VerifyOutcome.error)
    (hm : (mirrorProcessItem skipVerify m).failed = true) :
    (batchReport (pushProcessItem us) (p1 ++ a :: p2)
        = batchReport (pushProcessItem us) p1
          ++ pushProcessItem us a :: batchReport (pushProcessItem us) p2
      ∧ batchFailed (pushProcessItem us) (p1 ++ a :: p2)
        = batchFailed (pushProcessItem us) p1 ++ a :: batchFailed (pushProcessItem us) p2
      ∧ pushExit us (p1 ++ a :: p2) = 1)
    ∧ (batchReport (pullProcessItem us strategy) (q1 ++ b :: q2)
        = batchReport (pullProcessItem us strategy) q1
          ++ pullProcessItem us strategy b :: batchReport (pullProcessItem us strategy) q2
      ∧ batchFailedBy (pullProcessItem us strategy) (fun r => r.failed) (q1 ++ b :: q2)
        = batchFailedBy (pullProcessItem us strategy) (fun r => r.failed) q1
          ++ b :: batchFailedBy (pullProcessItem us strategy) (fun r => r.failed) q2
      ∧ pullExit us strategy (q1 ++ b :: q2) = 1)
    ∧ (batchReport (restoreProcessItem us) (r1 ++ c :: r2)
        = batchReport (restoreProcessItem us) r1
          ++ restoreProcessItem us c :: batchReport (restoreProcessItem us) r2
      ∧ batchFailedBy (restoreProcessItem us) (fun r => r.failed) (r1 ++ c :: r2)
        = batchFailedBy (restoreProcessItem us) (fun r => r.failed) r1
          ++ c :: batchFailedBy (restoreProcessItem us) (fun r => r.failed) r2
      ∧ restoreExit us (r1 ++ c :: r2) = 1)
    ∧ (batchReport (installProcessItem force remoteIds) (i1 ++ d :: i2)
        = batchReport (installProcessItem force remoteIds) i1
          ++ installProcessItem force remoteIds d
            :: batchReport (installProcessItem force remoteIds) i2
      ∧ batchFailedBy (installProcessItem force remoteIds) (fun r => r.failed) (i1 ++ d :: i2)
        = batchFailedBy (installProcessItem force remoteIds) (fun r => r.failed) i1
          ++ d :: batchFailedBy (installProcessItem force remoteIds) (fun r => r.failed) i2
      ∧ installExit force remoteIds (i1 ++ d :: i2) = 1)
    ∧ (batchReport (syncProcessItem remoteIds) (s1 ++ e :: s2)
        = batchReport (syncProcessItem remoteIds) s1
          ++ syncProcessItem remoteIds e :: batchReport (syncProcessItem remoteIds) s2
      ∧ batchFailed (syncProcessItem remoteIds) (s1 ++ e :: s2)
        = batchFailed (syncProcessItem remoteIds) s1
          ++ e :: batchFailed (syncProcessItem remoteIds) s2
      ∧ syncExit remoteIds (s1 ++ e :: s2) = 1)
    ∧ (verifyErrored (v1 ++ v :: v2) = verifyErrored v1 ++ v :: verifyErrored v2
      ∧ verifyInSync (v1 ++ v :: v2) = verifyInSync v1 ++ verifyInSync v2
      ∧ verifyOutOfSync (v1 ++ v :: v2) = verifyOutOfSync v1 ++ verifyOutOfSync v2
      ∧ verifyExit (v1 ++ v :: v2) = 1)
    ∧ (batchReport (mirrorProcessItem skipVerify) (m1 ++ m :: m2)
        = batchReport (mirrorProcessItem skipVerify) m1
          ++ mirrorProcessItem skipVerify m :: batchReport (mirrorProcessItem skipVerify) m2
      ∧ batchFailed (mirrorProcessItem skipVerify) (m1 ++ m :: m2)
        = batchFailed (mirrorProcessItem skipVerify) m1
          ++ m :: batchFailed (mirrorProcessItem skipVerify) m2
      ∧ mirrorExit skipVerify (m1 ++ m :: m2) = 1) :=
  ⟨batch_mid_failure (pushProcessItem us) p1 p2 a ha,
   batch_mid_failure_by (pullProcessItem us strategy) (fun r => r.failed) q1 q2 b hb,
   batch_mid_failure_by (restoreProcessItem us) (fun r => r.failed) r1 r2 c hc,
   batch_mid_failure_by (installProcessItem force remoteIds) (fun r => r.failed) i1 i2 d hd,
   batch_mid_failure (syncProcessItem remoteIds) s1 s2 e he,
   verify_mid_error v1 v2 v hv,
   batch_mid_failure (mirrorProcessItem skipVerify) m1 m2 m hm⟩

/-- C8 (witness): concrete batches for each of the seven commands, with a
failing item in the middle (or front) and in-sync or successful items after
it, all exit 1 with the later items still processed. -/
theorem batch_continue_on_error_witness :
    pushExit false
      ([⟨"a", some "https://h/a.git", none, ⟨"", 0, 0, 0, 0⟩⟩]
        ++ ⟨"b", none, none, ⟨"", 0, 0, 0, 0⟩⟩
          :: [⟨"c", some "https://h/c.git", none, ⟨"", 0, 0, 0, 0⟩⟩]) = 1 ∧
    pullExit false "fast-forward"
      ([] ++ (⟨"b", none, none, ⟨0, 0, 0, 0⟩⟩ : PullItem)
        :: [⟨"a", some "https://h/a.git", none, ⟨0, 0, 0, 0⟩⟩]) = 1 ∧
    restoreExit false
      ([] ++ (⟨"w/challenge.yml", "https://h/w.git", false, 0, 0⟩ : RestoreItem)
        :: [⟨"w2", "https://h/w2.git", false, 0, 0⟩]) = 1 ∧
    installExit false [1]
      ([] ++ (⟨2, "d", false, true⟩ : InstallItem) :: [⟨3, "i", false, false⟩]) = 1 ∧
    syncExit [1] ([] ++ (⟨2, "x", false⟩ : SyncItem) :: [⟨1, "y", false⟩]) = 1 ∧
    verifyExit
      ([⟨"p", .inSync⟩] ++ (⟨"v", .error⟩ : VerifyItem) :: [⟨"q", .outOfSync⟩]) = 1 ∧
    mirrorExit false
      ([] ++ (⟨"m", .outOfSync, true⟩ : MirrorItem) :: [⟨"n", .inSync, false⟩]) = 1 := by
  have t := batch_continue_on_error false false false "fast-forward" [1]
    [⟨"a", some "https://h/a.git", none, ⟨"", 0, 0, 0, 0⟩⟩]
    [⟨"c", some "https://h/c.git", none, ⟨"", 0, 0, 0, 0⟩⟩]
    ⟨"b", none, none, ⟨"", 0, 0, 0, 0⟩⟩
    [] [⟨"a", some "https://h/a.git", none, ⟨0, 0, 0, 0⟩⟩] ⟨"b", none, none, ⟨0, 0, 0, 0⟩⟩
    [] [⟨"w2", "https://h/w2.git", false, 0, 0⟩] ⟨"w/challenge.yml", "https://h/w.git", false, 0, 0⟩
    [] [⟨3, "i", false, false⟩] ⟨2, "d", false, true⟩
    [] [⟨1, "y", false⟩] ⟨2, "x", false⟩
    [⟨"p", .inSync⟩] [⟨"q", .outOfSync⟩] ⟨"v", .error⟩
    [] [⟨"n", .inSync, false⟩] ⟨"m", .outOfSync, true⟩
    (by decide) (by decide) (by decide) (by decide) (by decide) rfl (by decide)
  exact ⟨t.1.2.2, t.2.1.2.2, t.2.2.1.2.2, t.2.2.2.1.2.2, t.2.2.2.2.1.2.2,
    t.2.2.2.2.2.1.2.2.2, t.2.2.2.2.2.2.2.2⟩

/-- C9 (counterexample): `install` wraps even a single-item iteration in a
progress indicator (and offers no quiet option), and `restore` shows no
progress indicator even for a two-item batch - each refuting the claim that
every batch command shows the indicator exactly when the resolved list has
more than one element and quiet output has not been requested. -/
theorem install_progressbar_single_item :
    (installShowsProgress 1 = true ∧ ¬(1 < 1)) ∧
    (restoreShowsProgress 2 = false ∧ 1 < 2) := by decide

/-- C9 (amended): push and pull show the progress indicator exactly when
quiet is not requested and the list has more than one element; install,
sync, verify and mirror always wrap the iteration in a progress indicator;
restore never shows one. -/
theorem progress_indicator_policy (quiet : Bool) (n : Nat) :
    pushShowsProgress quiet n = (!quiet && decide (1 < n)) ∧
    pullShowsProgress quiet n = (!quiet && decide (1 < n)) ∧
    installShowsProgress n = true ∧ syncShowsProgress n = true ∧
    verifyShowsProgress n = true ∧ mirrorShowsProgress n = true ∧
    restoreShowsProgress n = false :=
  ⟨progress_gate_eq quiet n, progress_gate_eq quiet n, rfl, rfl, rfl, rfl, rfl⟩

/-- C10 (counterexample): a challenge that carries the `connection_info`
attribute with an empty value is overwritten by the deployment result,
refuting the claim that a pre-existing attribute is always left unchanged. -/
theorem deploy_connection_info_empty_overwritten :
    deployConnectionInfo (some "") (some "addr") = some "addr" ∧
    (some "addr" : Option String) ≠ some "" := by decide

/-- C10 (amended): a truthy (non-empty) pre-existing `connection_info` is
left unchanged regardless of the deployment result; when it is absent or
empty the attribute is set from a truthy deployment result, and cleared when
neither side provides a truthy value. -/
theorem deploy_connection_info_policy (existing result : Option String) :
    (pyTruthy existing = true → deployConnectionInfo existing result = existing) ∧
    (pyTruthy existing = false → pyTruthy result = true →
      deployConnectionInfo existing result = result) ∧
    (pyTruthy existing = false → pyTruthy result = false →
      deployConnectionInfo existing result = none) := by
  refine ⟨?_, ?_, ?_⟩
  · intro h; simp [deployConnectionInfo, h]
  · intro h1 h2; simp [deployConnectionInfo, h1, h2]
  · intro h1 h2; simp [deployConnectionInfo, h1, h2]

/-- C10 (witness): the three branches of the amended policy at concrete
values. -/
theorem deploy_connection_info_policy_witness :
    deployConnectionInfo (some "nc host 1337") (some "addr") = some "nc host 1337" ∧
    deployConnectionInfo none (some "addr") = some "addr" ∧
    deployConnectionInfo none none = none :=
  ⟨(deploy_connection_info_policy (some "nc host 1337") (some "addr")).1 (by decide),
   (deploy_connection_info_policy none (some "addr")).2.1 (by decide) (by decide),
   (deploy_connection_info_policy none none).2.2 (by decide) (by decide)⟩

end Ctfcli
